import Mathlib

/-!
Verification of the G-code pipe-joint transformer (`GCodePipeConnector` in
`src/main.py`) against its specification.

Modelling conventions:
* A G-code file is a `List String` of its lines, without trailing newlines.
* Python floats are modelled as exact values in a linear ordered field `K`
  (instantiated at `ℚ` for executable checks and at `ℝ` where the tilt
  angle's cosine/sine are involved).  `f'{v:.3f}'` / `f'{v:.5f}'` formatting
  is modelled as exact decimal rounding of the value (`roundTo`);
  `f'F{v}'` keeps the value unchanged.
* Fallible Python code (a `float(...)` call that can raise `ValueError`,
  `min()` of an empty sequence) is modelled with `Except Err`.
* The regular expression `re.search(r'A([-\d.]+)', line)` is modelled by
  `searchAxis`: the leftmost occurrence of the letter `A` followed by at
  least one character from `-0123456789.`, capturing the maximal run of
  such characters.
-/

deriving instance DecidableEq for Except

unseal Rat.inv Rat.mul Rat.add Rat.sub

namespace SPP

/-- Python exceptions that the source can raise, plus one model-only case. -/
inductive Err where
  /-- Python exception `ValueError` raised by `float(...)` on a token the regex matched but
  that is not a valid number (e.g. `"1.2.3"` or `"--5"`). -/
  | valueError
  /-- Python exception `ValueError` raised by `min()`/`max()` of an empty sequence
  (`main.py` line 52 when no line of the first part carries both X and Y). -/
  | emptySeq
  /-- Model-only: the second part contains no Z value, so
  `min_z_second_part` keeps its initial `float('inf')` in the source and
  every subsequent Z arithmetic would involve infinities.  `K` has no
  infinity, so this run is not modelled; no claim depends on it. -/
  | noSecondZ
  deriving DecidableEq

/-- Characters matched by the character class `[-\d.]` of the axis regex. -/
def isNumChar (c : Char) : Bool := c.isDigit || c == '-' || c == '.'

/-- Value of a digit string (most significant first). -/
def numVal (l : List Char) : ℕ := l.foldl (fun n c => 10 * n + (c.toNat - 48)) 0

variable {K : Type} [LinearOrderedField K] [FloorRing K]

/-- Python `float(s)` on a sign-free token drawn from `[-\d.]`: accepted iff
it has at least one digit, at most one dot and no minus sign. -/
def parseUnsigned (s : List Char) : Option K :=
  if s.any Char.isDigit && s.countP (fun c => c == '.') ≤ 1
      && s.all (fun c => c.isDigit || c == '.') then
    let ip := s.takeWhile (fun c => c ≠ '.')
    let fp := (s.dropWhile (fun c => c ≠ '.')).drop 1
    some ((numVal ip : K) + (numVal fp : K) / (10 : K) ^ fp.length)
  else none

/-- Python `float(s)` on a token drawn from `[-\d.]`: an optional single
leading minus sign, then an unsigned number. -/
def parseFloat (s : List Char) : Option K :=
  match s with
  | '-' :: rest => (parseUnsigned (K := K) rest).map (fun q => -q)
  | _ => parseUnsigned s

/-- Maximal run of `[-\d.]` characters (the greedy `+` of the regex). -/
def takeNum : List Char → List Char
  | [] => []
  | c :: cs => if isNumChar c then c :: takeNum cs else []

/-- Model of `re.search(r'A([-\d.]+)', line)`: leftmost occurrence of letter `a`
followed by at least one `[-\d.]` character; captures the maximal run. -/
def searchAxis (a : Char) : List Char → Option (List Char)
  | [] => none
  | c :: cs =>
    if c == a && isNumChar (cs.headD ' ') then some (takeNum cs)
    else searchAxis a cs

/-- Model of `float(match.group(1))` when the regex matched: raises `ValueError`
(`Err.valueError`) on a matched but unparseable token. -/
def axisValue (a : Char) (line : String) : Except Err (Option K) :=
  match searchAxis a line.data with
  | none => .ok none
  | some tok =>
    match parseFloat (K := K) tok with
    | some v => .ok (some v)
    | none => .error .valueError

/-- Model of `line.startswith('G0 ') or line.startswith('G1 ')`. -/
def isMotion (line : String) : Bool :=
  (['G', '0', ' '].isPrefixOf line.data) || (['G', '1', ' '].isPrefixOf line.data)

/-- Python `line.strip()` (for the ASCII whitespace appearing in toolpaths). -/
def pyStrip (line : String) : String :=
  String.mk (((line.data.dropWhile Char.isWhitespace).reverse.dropWhile
    Char.isWhitespace).reverse)

/-- Python `line[:2]` (the command word, `"G0"` or `"G1"`). -/
def cmdOf (line : String) : String := String.mk (line.data.take 2)

/-- Python `min(list)`: `None` stands for the `ValueError` on `[]`. -/
def listMin (l : List K) : Option K :=
  match l with
  | [] => none
  | a :: rest => some (rest.foldl min a)

/-- Python `max(list)`: `None` stands for the `ValueError` on `[]`. -/
def listMax (l : List K) : Option K :=
  match l with
  | [] => none
  | a :: rest => some (rest.foldl max a)

/-- Result of `analyze_first_part` (`main.py` lines 19-53). -/
structure FirstAnalysis (K : Type) where
  max_z : K
  pipe_diameter : K
  wall_thickness : K
  pivot_x : K
  pivot_y : K
  deriving DecidableEq

/-- One iteration of the `analyze_first_part` loop body for the X/Y part
(`main.py` lines 30-41): when both the X and the Y regex match, both tokens
are converted by `float` (either may raise) and the pair is appended. -/
def pairsStep (acc : K × List (K × K)) (line : String) :
    Except Err (K × List (K × K)) :=
  match searchAxis 'X' line.data, searchAxis 'Y' line.data with
  | some tx, some ty =>
    match parseFloat (K := K) tx with
    | none => .error .valueError
    | some x =>
      match parseFloat (K := K) ty with
      | none => .error .valueError
      | some y => .ok (acc.1, acc.2 ++ [(x, y)])
  | _, _ => .ok acc

/-- One iteration of the `analyze_first_part` loop body (`main.py` lines
28-41): on a motion line, a matched Z token is converted by `float` (which
may raise) and folded into the running maximum, then X/Y pairs are
collected. -/
def firstStep (acc : K × List (K × K)) (line : String) :
    Except Err (K × List (K × K)) :=
  if isMotion line then
    match searchAxis 'Z' line.data with
    | some tok =>
      match parseFloat (K := K) tok with
      | none => .error .valueError
      | some z => pairsStep (max acc.1 z, acc.2) line
    | none => pairsStep acc line
  else .ok acc

/-- The `for line in file` loop of `analyze_first_part`. -/
def firstLoop (acc : K × List (K × K)) : List String → Except Err (K × List (K × K))
  | [] => .ok acc
  | l :: ls =>
    match firstStep acc l with
    | .error e => .error e
    | .ok acc2 => firstLoop acc2 ls

/-- Model of `analyze_first_part` (`main.py` lines 19-53): running max of Z seeded
with `0`, X/Y pairs collected, then pipe diameter as the larger bounding-box
span, wall thickness as `diameter * 0.1`, and the pivot as the bounding-box
center.  `min()` of an empty coordinate list raises `ValueError`. -/
def analyze_first_part (lines : List String) : Except Err (FirstAnalysis K) :=
  match firstLoop (K := K) (0, []) lines with
  | .error e => .error e
  | .ok (mz, pairs) =>
    let xs := pairs.map Prod.fst
    let ys := pairs.map Prod.snd
    match listMin xs, listMax xs, listMin ys, listMax ys with
    | some xmin, some xmax, some ymin, some ymax =>
      let d := max (xmax - xmin) (ymax - ymin)
      .ok ⟨mz, d, d * (1 / 10), (xmin + xmax) / 2, (ymin + ymax) / 2⟩
    | _, _, _, _ => .error .emptySeq

/-- The `for line in file` loop of `analyze_second_part` (`main.py` lines
128-136): running minimum of Z over motion lines.  `none` stands for the
initial `float('inf')` never being replaced. -/
def secondLoop (acc : Option K) : List String → Except Err (Option K)
  | [] => .ok acc
  | l :: ls =>
    if isMotion l then
      match searchAxis 'Z' l.data with
      | none => secondLoop acc ls
      | some tok =>
        match parseFloat (K := K) tok with
        | none => .error .valueError
        | some z =>
          secondLoop (some (match acc with | none => z | some m => min m z)) ls
    else secondLoop acc ls

/-- Model of `analyze_second_part` (`main.py` lines 128-136). -/
def analyze_second_part (lines : List String) : Except Err (Option K) :=
  secondLoop (K := K) none lines

/-- The frozen per-run state consumed by `transform_movement`
(`GCodePipeConnector`'s fields after both analyses and
`get_transformation_matrices` ran; `cosT`/`sinT` are `cos`/`sin` of the
tilt angle). -/
structure Geometry (K : Type) where
  cosT : K
  sinT : K
  pivot_x : K
  pivot_y : K
  pipe_diameter : K
  first_part_max_z : K
  min_z_second_part : K
  deriving DecidableEq

/-- Model of `get_transformation_matrices` (`main.py` lines 55-65): the rotation
matrix around the Y axis built from `cos` and `sin` of the tilt angle. -/
def rotation_matrix (cosT sinT : K) : Matrix (Fin 3) (Fin 3) K :=
  !![cosT, 0, sinT; 0, 1, 0; -sinT, 0, cosT]

/-- Model of `transform_point` (`main.py` lines 67-92).  The `np.dot` of the 3×3
rotation matrix with the point vector is written out componentwise (see
`transform_point_eq_mulVec` below for the proof that this is exactly
`(rotation_matrix g.cosT g.sinT).mulVec`); the line-89 `math.cos(self.tilt_angle)`
is the same value as `cos_t`, i.e. `g.cosT`. -/
def transform_point (g : Geometry K) (x y z : K) : Fin 3 → K :=
  let connection_offset := g.pipe_diameter * (1 / 2)
  let adjusted_z := z - g.min_z_second_part
  let px := x - g.pivot_x
  let py := y - g.pivot_y
  let pz := adjusted_z + connection_offset
  let r0 := g.cosT * px + 0 * py + g.sinT * pz
  let r1 := 0 * px + 1 * py + 0 * pz
  let r2 := -g.sinT * px + 0 * py + g.cosT * pz
  ![r0 + g.pivot_x, r1 + g.pivot_y,
    r2 + g.first_part_max_z - connection_offset * g.cosT]

/-- The value printed by `f'{v:.3f}'` / `f'{v:.5f}'`: the input rounded to
`d` decimal places. -/
def roundTo (d : ℕ) (q : K) : K := ((round (q * (10 : K) ^ d) : ℤ) : K) / (10 : K) ^ d

/-- Result of `process_line`: either a string passed through (after
`strip()`) or a rebuilt motion command with its numeric parts. -/
inductive Processed (K : Type) where
  | passthrough (s : String)
  | motion (cmd : String) (parts : List (Char × K))
  deriving DecidableEq

/-- The `parts` list built in `transform_movement` (`main.py` lines
157-168): only the axes present in the original command are appended, X/Y/Z
formatted with 3 decimals from the transformed point, E with 5 decimals and
F verbatim from the original values. -/
def mkParts (x? y? z? e? f? : Option K) (p : Fin 3 → K) : List (Char × K) :=
  (match x? with | some _ => [('X', roundTo 3 (p 0))] | none => ([] : List (Char × K)))
    ++ (match y? with | some _ => [('Y', roundTo 3 (p 1))] | none => [])
    ++ (match z? with | some _ => [('Z', roundTo 3 (p 2))] | none => [])
    ++ (match e? with | some e => [('E', roundTo 5 e)] | none => [])
    ++ (match f? with | some f => [('F', f)] | none => [])

/-- The extraction loop of `transform_movement` (`main.py` lines 140-145):
the five axis regexes are tried in the order X, Y, Z, E, F; the first
matched-but-unparseable token raises. -/
def extract_axes (line : String) :
    Except Err (Option K × Option K × Option K × Option K × Option K) :=
  match axisValue (K := K) 'X' line with
  | .error e => .error e
  | .ok x? =>
    match axisValue (K := K) 'Y' line with
    | .error e => .error e
    | .ok y? =>
      match axisValue (K := K) 'Z' line with
      | .error e => .error e
      | .ok z? =>
        match axisValue (K := K) 'E' line with
        | .error e => .error e
        | .ok e? =>
          match axisValue (K := K) 'F' line with
          | .error e => .error e
          | .ok f? => .ok (x?, y?, z?, e?, f?)

/-- Model of `transform_movement` (`main.py` lines 138-170): extract the axes; if
none of X, Y, Z is present return the stripped line; otherwise fill the
missing axes with the fixed values `pivot_x`, `pivot_y`,
`min_z_second_part`, transform, and emit only the axes originally
present. -/
def transform_movement (g : Geometry K) (line : String) : Except Err (Processed K) :=
  match extract_axes (K := K) line with
  | .error e => .error e
  | .ok (x?, y?, z?, e?, f?) =>
    match x?, y?, z? with
    | none, none, none => .ok (.passthrough (pyStrip line))
    | _, _, _ =>
      let x := x?.getD g.pivot_x
      let y := y?.getD g.pivot_y
      let z := z?.getD g.min_z_second_part
      .ok (.motion (cmdOf line) (mkParts x? y? z? e? f? (transform_point g x y z)))

/-- Model of `process_line` (`main.py` lines 119-126); the `';'` branch and the
`else` branch both return `line.strip()`. -/
def process_line (g : Geometry K) (line : String) : Except Err (Processed K) :=
  if isMotion line then transform_movement g line
  else .ok (.passthrough (pyStrip line))

/-- One output line of `process_files`. -/
inductive OutLine (K : Type) where
  /-- A first-part line copied byte-for-byte (`main.py` line 104). -/
  | verbatim (s : String)
  /-- A fixed transition line, or a stripped second-part line. -/
  | text (s : String)
  /-- The line `f'G0 F5000 Z\x7bz\x7d ; Lift Z'` (`main.py` line 110). -/
  | zlift (z : K)
  /-- A rebuilt motion command `command + ' ' + ' '.join(parts)`. -/
  | motion (cmd : String) (parts : List (Char × K))
  deriving DecidableEq

/-- The write guarded by `if processed_line:` (`main.py` lines 116-117): a
pass-through that stripped to the empty string is falsy and dropped. -/
def emitOf (pr : Processed K) : Option (OutLine K) :=
  match pr with
  | .passthrough s => if s = "" then none else some (.text s)
  | .motion c ps => some (.motion c ps)

/-- Processing and conditional writing of one second-part line. -/
def emitLine (g : Geometry K) (line : String) : Except Err (Option (OutLine K)) :=
  match process_line g line with
  | .error e => .error e
  | .ok pr => .ok (emitOf pr)

/-- The second-part `for` loop of `process_files` (`main.py` lines 113-117). -/
def process_second (g : Geometry K) : List String → Except Err (List (OutLine K))
  | [] => .ok []
  | l :: ls =>
    match emitLine g l with
    | .error e => .error e
    | .ok o =>
      match process_second g ls with
      | .error e => .error e
      | .ok os => .ok (o.toList ++ os)

/-- The transition writes of `process_files` (`main.py` lines 107-110): a
blank line, a comment, the extruder reset, the retraction, the Z lift at
`z`, and a trailing blank line. -/
def transitionBlock (z : K) : List (OutLine K) :=
  [.text "", .text "; Starting angled pipe connection",
   .text "G92 E0 ; Reset extruder",
   .text "G1 F2400 E-3 ; Retract filament",
   .zlift z, .text ""]

/-- Assembling the per-run state from the two analyses and the tilt's
cosine/sine, as `process_files` does before writing. -/
def mkGeometryK (cosT sinT : K) (fa : FirstAnalysis K) (mz : K) : Geometry K :=
  ⟨cosT, sinT, fa.pivot_x, fa.pivot_y, fa.pipe_diameter, fa.max_z, mz⟩

/-- Model of `process_files` (`main.py` lines 94-117), parameterized by the cosine
and sine of the tilt angle (the only transcendental quantities; the source
computes them once in `get_transformation_matrices`): analyze both parts,
copy the first part verbatim, write the transition block with the Z lift at
`first_part_max_z + 5`, then write the transformed second part. -/
def process_files (cosT sinT : K) (first second : List String) :
    Except Err (List (OutLine K)) :=
  match analyze_first_part (K := K) first with
  | .error e => .error e
  | .ok fa =>
    match analyze_second_part (K := K) second with
    | .error e => .error e
    | .ok none => .error .noSecondZ
    | .ok (some mz) =>
      match process_second (mkGeometryK cosT sinT fa mz) second with
      | .error e => .error e
      | .ok outs =>
        .ok (first.map OutLine.verbatim ++ transitionBlock (fa.max_z + 5) ++ outs)

/-- The geometry induced by an actual tilt angle `θ` (in radians), as
`__init__` plus `get_transformation_matrices` compute it. -/
noncomputable def mkGeometry (θ : ℝ) (fa : FirstAnalysis ℝ) (mz : ℝ) : Geometry ℝ :=
  mkGeometryK (Real.cos θ) (Real.sin θ) fa mz

/-- Modelled from the spec (§4.5): the carried-state variant of
`transform_movement` that the specification describes — a state `{x, y, z}`
updated by each command's explicitly present axes, so that a missing axis
takes the value most recently seen for that axis.  Written for comparison
with the source's `transform_movement`. -/
def transform_movement_carried (g : Geometry K) (st : K × K × K) (line : String) :
    Except Err ((K × K × K) × Processed K) :=
  match extract_axes (K := K) line with
  | .error e => .error e
  | .ok (x?, y?, z?, e?, f?) =>
    match x?, y?, z? with
    | none, none, none => .ok (st, .passthrough (pyStrip line))
    | _, _, _ =>
      let x := x?.getD st.1
      let y := y?.getD st.2.1
      let z := z?.getD st.2.2
      .ok ((x, y, z),
        .motion (cmdOf line) (mkParts x? y? z? e? f? (transform_point g x y z)))

/-- Modelled from the spec (§4.5): the second-part loop threading the
carried state through the motion commands. -/
def process_second_carried (g : Geometry K) (st : K × K × K) :
    List String → Except Err (List (OutLine K))
  | [] => .ok []
  | l :: ls =>
    if isMotion l then
      match transform_movement_carried g st l with
      | .error e => .error e
      | .ok (st2, pr) =>
        match process_second_carried g st2 ls with
        | .error e => .error e
        | .ok os => .ok ((emitOf pr).toList ++ os)
    else
      match process_second_carried g st ls with
      | .error e => .error e
      | .ok os => .ok ((emitOf (.passthrough (pyStrip l))).toList ++ os)

/-- Modelled from the spec (§4.5): `process_files` with the carried-state
transformer, the state initialized to
`{pivot_x, pivot_y, min_z_of_second_part}`. -/
def process_files_carried (cosT sinT : K) (first second : List String) :
    Except Err (List (OutLine K)) :=
  match analyze_first_part (K := K) first with
  | .error e => .error e
  | .ok fa =>
    match analyze_second_part (K := K) second with
    | .error e => .error e
    | .ok none => .error .noSecondZ
    | .ok (some mz) =>
      let g := mkGeometryK cosT sinT fa mz
      match process_second_carried g (g.pivot_x, g.pivot_y, g.min_z_second_part) second with
      | .error e => .error e
      | .ok outs =>
        .ok (first.map OutLine.verbatim ++ transitionBlock (fa.max_z + 5) ++ outs)

/-- The Z value a first-part line contributes to the running maximum:
present iff the line is a motion line whose Z regex matches a parseable
token. -/
def zTok (l : String) : Option K :=
  if isMotion l then (searchAxis 'Z' l.data).bind (fun t => parseFloat t) else none

/-- All Z values of a file, in order. -/
def zsParsed (lines : List String) : List K := lines.filterMap (zTok (K := K))

/-- The X/Y pair a first-part line contributes to the coordinate lists:
present iff the line is a motion line where both the X and the Y regex
match parseable tokens. -/
def xyPair (l : String) : Option (K × K) :=
  if isMotion l then
    match searchAxis 'X' l.data, searchAxis 'Y' l.data with
    | some tx, some ty =>
      match parseFloat (K := K) tx, parseFloat (K := K) ty with
      | some x, some y => some (x, y)
      | _, _ => none
    | _, _ => none
  else none

/-- All X/Y pairs of a file, in order. -/
def xyPairsSpec (lines : List String) : List (K × K) :=
  lines.filterMap (xyPair (K := K))

/-- The componentwise rotation inside `transform_point` is exactly the
`np.dot` of `rotation_matrix` with the pivot-relative point vector. -/
theorem transform_point_eq_mulVec (g : Geometry K) (x y z : K) :
    transform_point g x y z =
      (fun r : Fin 3 → K =>
        ![r 0 + g.pivot_x, r 1 + g.pivot_y,
          r 2 + g.first_part_max_z - g.pipe_diameter * (1 / 2) * g.cosT])
        ((rotation_matrix g.cosT g.sinT).mulVec
          ![x - g.pivot_x, y - g.pivot_y,
            (z - g.min_z_second_part) + g.pipe_diameter * (1 / 2)]) := by
  funext i
  fin_cases i <;>
    simp [transform_point, rotation_matrix, Matrix.mulVec, Matrix.dotProduct,
      Fin.sum_univ_three]

/-- One `analyze_first_part` loop iteration, characterized by the per-line
contributions `zTok` and `xyPair`. -/
theorem firstStep_ok {acc acc2 : K × List (K × K)} {l : String}
    (h : firstStep acc l = .ok acc2) :
    acc2 = ((zTok (K := K) l).elim acc.1 (fun z => max acc.1 z),
            acc.2 ++ (xyPair (K := K) l).toList) := by
  unfold firstStep pairsStep at h
  unfold zTok xyPair
  split at h <;> (repeat' split at h) <;> simp_all

/-- The `analyze_first_part` loop computes the running maximum of the
file's Z values over the seed and appends the file's X/Y pairs. -/
theorem firstLoop_ok :
    ∀ {lines : List String} {acc res : K × List (K × K)},
      firstLoop acc lines = .ok res →
      res.1 = (zsParsed (K := K) lines).foldl max acc.1 ∧
      res.2 = acc.2 ++ xyPairsSpec (K := K) lines := by
  intro lines
  induction lines with
  | nil =>
    intro acc res h
    simp [firstLoop] at h
    simp [← h, zsParsed, xyPairsSpec]
  | cons l ls ih =>
    intro acc res h
    unfold firstLoop at h
    cases hs : firstStep (K := K) acc l with
    | error e => rw [hs] at h; exact absurd h (by simp)
    | ok acc2 =>
      rw [hs] at h
      obtain ⟨h1, h2⟩ := ih h
      have hstep := firstStep_ok hs
      constructor
      · rw [h1, hstep]
        simp only [zsParsed, List.filterMap_cons]
        cases zTok (K := K) l <;> simp
      · rw [h2, hstep]
        simp only [xyPairsSpec, List.filterMap_cons]
        cases xyPair (K := K) l <;> simp

/-- Folding `max` over only-negative values cannot move a non-negative
accumulator. -/
theorem foldl_max_of_neg :
    ∀ {zs : List K} {a : K}, (∀ z ∈ zs, z < 0) → 0 ≤ a → zs.foldl max a = a := by
  intro zs
  induction zs with
  | nil => intro a _ _; rfl
  | cons z rest ih =>
    intro a h ha
    have hz : z < 0 := h z (by simp)
    have hmax : max a z = a := max_eq_left (le_of_lt (lt_of_lt_of_le hz ha))
    rw [List.foldl_cons, hmax]
    exact ih (fun w hw => h w (by simp [hw])) ha

/-- Success test for `Except`, as a plain definition on our result type. -/
def exceptOk {ε α : Type} (e : Except ε α) : Bool :=
  match e with
  | .ok _ => true
  | .error _ => false

/-- Example first part: two motion lines, bounding box `[0,10] × [0,10]`,
maximum Z `1`. -/
def exFirst : List String := ["G0 X0 Y0 Z1", "G1 X10 Y10"]

/-- Example second part: two full motion commands followed by one carrying
only X. -/
def exSecond : List String := ["G1 X1 Y1 Z2", "G1 X2 Y2 Z7", "G1 X3"]

/-- The geometry induced by `exFirst`/`exSecond` at tilt angle `π/2`
(whose cosine is `0` and sine is `1`): pivot `(5, 5)`, diameter `10`,
first-part max Z `1`, second-part min Z `2`. -/
def gEx : Geometry ℚ := ⟨0, 1, 5, 5, 10, 1, 2⟩

/-- Result of `analyze_first_part exFirst`. -/
def exFA : FirstAnalysis ℚ := ⟨1, 10, 1, 5, 5⟩

/-- The transformed second part of the example run (source semantics:
missing axes default to pivot/min-Z). -/
def exSec : List (OutLine ℚ) :=
  [.motion "G1" [('X', 10), ('Y', 1), ('Z', 5)],
   .motion "G1" [('X', 15), ('Y', 2), ('Z', 4)],
   .motion "G1" [('X', 10)]]

/-- The full output of the example run. -/
def exOut : List (OutLine ℚ) := exFirst.map OutLine.verbatim ++ transitionBlock 6 ++ exSec

/-- The output the spec's carried-state semantics would produce on the same
run: the final `G1 X3` command reuses the carried `z = 7` instead of the
fixed `min_z_second_part = 2`, giving `X15` instead of `X10`. -/
def exOutCarried : List (OutLine ℚ) :=
  exFirst.map OutLine.verbatim ++ transitionBlock 6 ++
    [.motion "G1" [('X', 10), ('Y', 1), ('Z', 5)],
     .motion "G1" [('X', 15), ('Y', 2), ('Z', 4)],
     .motion "G1" [('X', 15)]]

/-- C1, counterexample: the transformer does not maintain a carried state.
On a concrete run (tilt `π/2`, so `cos = 0`, `sin = 1`) whose last command
carries only X, the source (`process_files`) fills the missing Z with the
fixed `min_z_second_part` and emits `X10`, while the spec's carried-state
semantics (`process_files_carried`) would reuse the previous command's
`z = 7` and emit `X15`. -/
theorem C1_counterexample :
    process_files (K := ℚ) 0 1 exFirst exSecond = .ok exOut ∧
    process_files_carried (K := ℚ) 0 1 exFirst exSecond = .ok exOutCarried ∧
    exOut ≠ exOutCarried := by
  refine ⟨by decide, by decide, by decide⟩

/-- C1 (corrected): the joint transformer is stateless.  Processing a
second part splits over list concatenation (no information flows from
earlier commands to later ones), and on each individual command the axes
missing from the command are filled with the fixed values `pivot_x`,
`pivot_y`, `min_z_second_part` — not with values remembered from earlier
commands. -/
theorem C1_theorem :
    (∀ (g : Geometry K) (pre post : List String),
      process_second g (pre ++ post) =
        match process_second g pre with
        | .error e => .error e
        | .ok a =>
          match process_second g post with
          | .error e => .error e
          | .ok b => .ok (a ++ b)) ∧
    (∀ (g : Geometry K) (line : String) (x? y? z? e? f? : Option K),
      extract_axes (K := K) line = .ok (x?, y?, z?, e?, f?) →
      ¬(x? = none ∧ y? = none ∧ z? = none) →
      transform_movement g line =
        .ok (.motion (cmdOf line)
          (mkParts x? y? z? e? f?
            (transform_point g (x?.getD g.pivot_x) (y?.getD g.pivot_y)
              (z?.getD g.min_z_second_part))))) := by
  constructor
  · intro g pre post
    induction pre with
    | nil =>
      simp only [List.nil_append, process_second]
      cases hp : process_second g post <;> simp
    | cons l pre ih =>
      simp only [List.cons_append, process_second]
      cases he : emitLine g l with
      | error e => simp
      | ok o =>
        simp only [List.append_eq]
        rw [ih]
        cases hp : process_second g pre <;>
          cases hq : process_second g post <;> simp [List.append_assoc]
  · intro g line x? y? z? e? f? hex hne
    unfold transform_movement
    rw [hex]
    rcases x? with _ | xv <;> rcases y? with _ | yv <;> rcases z? with _ | zv <;>
      simp_all

/-- C1, witness for the corrected statement at a concrete input. -/
theorem C1_witness :
    process_second (K := ℚ) gEx (["G1 X1 Y1 Z2"] ++ ["G1 X3"]) =
      (match process_second (K := ℚ) gEx ["G1 X1 Y1 Z2"] with
        | .error e => .error e
        | .ok a =>
          match process_second (K := ℚ) gEx ["G1 X3"] with
          | .error e => .error e
          | .ok b => .ok (a ++ b)) ∧
    transform_movement (K := ℚ) gEx "G1 X3" =
      .ok (.motion (cmdOf "G1 X3")
        (mkParts (some 3) none none none none
          (transform_point gEx ((some (3 : ℚ)).getD gEx.pivot_x)
            ((none : Option ℚ).getD gEx.pivot_y)
            ((none : Option ℚ).getD gEx.min_z_second_part)))) :=
  ⟨C1_theorem.1 gEx ["G1 X1 Y1 Z2"] ["G1 X3"],
   C1_theorem.2 gEx "G1 X3" (some 3) none none none none (by decide) (by decide)⟩

/-- C2, counterexample: on a line whose X token `1.2.3` is matched by the
axis regex but rejected by `float`, processing raises `ValueError`
(aborting the run) instead of passing the line through unmodified. -/
theorem C2_counterexample :
    process_line (K := ℚ) gEx "G1 X1.2.3 Y4" = .error Err.valueError := by
  decide

/-- C2 (corrected): a line none of whose axis letters is followed by a
regex-matchable numeric token passes through (whitespace-stripped, treated
as carrying no axes) and the run continues; and whenever every matched
token does parse as a number, processing the line cannot raise.  Only a
token that the regex matches but `float` rejects raises `ValueError`. -/
theorem C2_theorem (g : Geometry K) (line : String) :
    ((∀ a ∈ (['X', 'Y', 'Z', 'E', 'F'] : List Char), searchAxis a line.data = none) →
      process_line g line = .ok (.passthrough (pyStrip line))) ∧
    ((∀ a ∈ (['X', 'Y', 'Z', 'E', 'F'] : List Char), ∀ tok,
        searchAxis a line.data = some tok → (parseFloat (K := K) tok).isSome = true) →
      exceptOk (process_line g line) = true) := by
  constructor
  · intro h
    have hx := h 'X' (by simp)
    have hy := h 'Y' (by simp)
    have hz := h 'Z' (by simp)
    have he := h 'E' (by simp)
    have hf := h 'F' (by simp)
    unfold process_line
    split
    · unfold transform_movement extract_axes axisValue
      rw [hx, hy, hz, he, hf]
    · rfl
  · intro h
    unfold process_line
    split
    · have hax : ∀ a ∈ (['X', 'Y', 'Z', 'E', 'F'] : List Char),
          ∃ v, axisValue (K := K) a line = .ok v := by
        intro a ha
        cases hs : searchAxis a line.data with
        | none => exact ⟨none, by unfold axisValue; rw [hs]⟩
        | some tok =>
          have hp := h a ha tok hs
          cases hpf : parseFloat (K := K) tok with
          | none => simp [hpf] at hp
          | some v => exact ⟨some v, by simp [axisValue, hs, hpf]⟩
      obtain ⟨x?, hx⟩ := hax 'X' (by simp)
      obtain ⟨y?, hy⟩ := hax 'Y' (by simp)
      obtain ⟨z?, hz⟩ := hax 'Z' (by simp)
      obtain ⟨e?, he⟩ := hax 'E' (by simp)
      obtain ⟨f?, hf⟩ := hax 'F' (by simp)
      unfold transform_movement extract_axes
      rw [hx, hy, hz, he, hf]
      rcases x? with _ | xv <;> rcases y? with _ | yv <;> rcases z? with _ | zv <;>
        simp [exceptOk]
    · rfl

/-- C2, witness: a line whose X is followed by an unmatchable token passes
through stripped. -/
theorem C2_witness :
    process_line (K := ℚ) gEx "G1 Xabc" = .ok (.passthrough (pyStrip "G1 Xabc")) :=
  (C2_theorem gEx "G1 Xabc").1 (by decide)

/-- C3, counterexample: on a concrete second part, a comment line with
surrounding whitespace is emitted stripped (not byte-for-byte) and a blank
line is dropped entirely. -/
theorem C3_counterexample :
    process_second (K := ℚ) gEx ["  ; hi  ", ""] = .ok [.text "; hi"] := by
  decide

/-- C3 (corrected): every second-part line that is not a rapid/linear
motion command is emitted `strip()`ed of surrounding whitespace — and a
line that strips to the empty string is dropped (the `if processed_line:`
falsy check), not preserved. -/
theorem C3_theorem (g : Geometry K) (line : String) (h : isMotion line = false) :
    emitLine g line =
      .ok (if pyStrip line = "" then none else some (.text (pyStrip line))) := by
  simp [emitLine, process_line, h, emitOf]

/-- C3, witness at a concrete comment line. -/
theorem C3_witness :
    emitLine (K := ℚ) gEx " ; note " =
      .ok (if pyStrip " ; note " = "" then none
           else some (.text (pyStrip " ; note "))) :=
  C3_theorem gEx " ; note " (by decide)

/-- C6: at tilt angle `0` the rotation matrix is the identity and
`transform_point` degenerates to a pure translation in Z: the transformed
point is the input point with `first_part_max_z - min_z_second_part` added
to its Z coordinate, X and Y unchanged. -/
theorem C6_theorem (fa : FirstAnalysis ℝ) (mz x y z : ℝ) :
    rotation_matrix (Real.cos 0) (Real.sin 0) = (1 : Matrix (Fin 3) (Fin 3) ℝ) ∧
    transform_point (mkGeometry 0 fa mz) x y z = ![x, y, z + (fa.max_z - mz)] := by
  constructor
  · ext i j
    fin_cases i <;> fin_cases j <;>
      simp [rotation_matrix, Real.cos_zero, Real.sin_zero, Matrix.one_apply,
        Matrix.vecHead, Matrix.vecTail]
  · funext i
    fin_cases i <;>
      simp [transform_point, mkGeometry, mkGeometryK, Real.cos_zero,
        Real.sin_zero] <;> ring

/-- The recorded first-part maximum height is the fold of `max` over the
file's Z values, seeded with `0`. -/
theorem analyze_max_z (first : List String) (fa : FirstAnalysis K)
    (hfa : analyze_first_part (K := K) first = .ok fa) :
    fa.max_z = (zsParsed (K := K) first).foldl max 0 := by
  unfold analyze_first_part at hfa
  split at hfa
  · exact absurd hfa (by simp)
  · rename_i mzv pairs heqloop
    obtain ⟨h1, -⟩ := firstLoop_ok heqloop
    simp only [] at hfa
    split at hfa
    · injection hfa with hq
      rw [← hq]
      simpa using h1
    · exact absurd hfa (by simp)

/-- A successful `process_files` run decomposes into its three stages and
the output has the verbatim-first-part / transition / transformed-second
shape. -/
theorem process_files_ok (cT sT : K) (first second : List String)
    (out : List (OutLine K))
    (h : process_files cT sT first second = .ok out) :
    ∃ fa mz sec, analyze_first_part (K := K) first = .ok fa ∧
      analyze_second_part (K := K) second = .ok (some mz) ∧
      process_second (mkGeometryK cT sT fa mz) second = .ok sec ∧
      out = first.map OutLine.verbatim ++ transitionBlock (fa.max_z + 5) ++ sec := by
  unfold process_files at h
  split at h
  · exact absurd h (by simp)
  · rename_i fa hfa
    split at h
    · exact absurd h (by simp)
    · exact absurd h (by simp)
    · rename_i mz hmz
      split at h
      · exact absurd h (by simp)
      · rename_i sec hsec
        injection h with hq
        exact ⟨fa, mz, sec, hfa, hmz, hsec, hq.symm⟩

/-- C7: `transform_point` first re-bases the second part's Z to start at
zero — transforming `(x, y, z)` with minimum `min_z_second_part` is the
same as transforming `(x, y, z - min_z_second_part)` with minimum `0`,
everything else (rotation, connection offset, Z translation) unchanged. -/
theorem C7_theorem (g : Geometry K) (x y z : K) :
    transform_point g x y z =
      transform_point
        ⟨g.cosT, g.sinT, g.pivot_x, g.pivot_y, g.pipe_diameter,
         g.first_part_max_z, 0⟩ x y (z - g.min_z_second_part) := by
  funext i
  fin_cases i <;> simp [transform_point] <;> ring

/-- C4: a successful joint run writes the first part verbatim, then the
transition block (extruder reset `G92 E0`, retraction `G1 F2400 E-3`, and a
rapid Z lift at the first part's recorded maximum height plus 5), then the
transformed second part. -/
theorem C4_theorem (cT sT : K) (first second : List String)
    (out : List (OutLine K)) (fa : FirstAnalysis K) (mz : K)
    (sec : List (OutLine K))
    (h : process_files cT sT first second = .ok out)
    (hfa : analyze_first_part (K := K) first = .ok fa)
    (hmz : analyze_second_part (K := K) second = .ok (some mz))
    (hsec : process_second (mkGeometryK cT sT fa mz) second = .ok sec) :
    out = first.map OutLine.verbatim ++ transitionBlock (fa.max_z + 5) ++ sec ∧
    OutLine.text "G92 E0 ; Reset extruder" ∈ transitionBlock (K := K) (fa.max_z + 5) ∧
    OutLine.text "G1 F2400 E-3 ; Retract filament"
      ∈ transitionBlock (K := K) (fa.max_z + 5) ∧
    OutLine.zlift (fa.max_z + 5) ∈ transitionBlock (K := K) (fa.max_z + 5) ∧
    fa.max_z = (zsParsed (K := K) first).foldl max 0 := by
  obtain ⟨fa2, mz2, sec2, h1, h2, h3, h4⟩ := process_files_ok cT sT first second out h
  rw [hfa] at h1
  injection h1 with h1
  subst h1
  rw [hmz] at h2
  injection h2 with h2
  injection h2 with h2
  subst h2
  rw [hsec] at h3
  injection h3 with h3
  subst h3
  exact ⟨h4, by simp [transitionBlock], by simp [transitionBlock],
    by simp [transitionBlock], analyze_max_z first fa hfa⟩

/-- C4, witness at the concrete example run. -/
theorem C4_witness :
    exOut = exFirst.map OutLine.verbatim ++ transitionBlock (exFA.max_z + 5) ++ exSec ∧
    OutLine.text "G92 E0 ; Reset extruder" ∈ transitionBlock (K := ℚ) (exFA.max_z + 5) ∧
    OutLine.text "G1 F2400 E-3 ; Retract filament"
      ∈ transitionBlock (K := ℚ) (exFA.max_z + 5) ∧
    OutLine.zlift (exFA.max_z + 5) ∈ transitionBlock (K := ℚ) (exFA.max_z + 5) ∧
    exFA.max_z = (zsParsed (K := ℚ) exFirst).foldl max 0 :=
  C4_theorem 0 1 exFirst exSecond exOut exFA 2 exSec (by decide) (by decide)
    (by decide) (by decide)

/-- C5: the analysis pass computes pivot = XY bounding-box center,
pipe diameter = larger bounding-box span, wall thickness = 10 percent of
the diameter; the rotation matrix built from the tilt angle is the proper
rotation about the Y axis (orthogonal, determinant one, fixing the Y axis);
and `transform_point` uses the connection offset `pipe_diameter / 2` in
both the pre-rotation Z and the post-rotation Z correction. -/
theorem C5_theorem (θ : ℝ) (first : List String) (fa : FirstAnalysis K)
    (xmin xmax ymin ymax : K) (g : Geometry K) (x y z : K)
    (hfa : analyze_first_part (K := K) first = .ok fa)
    (hx1 : listMin ((xyPairsSpec (K := K) first).map Prod.fst) = some xmin)
    (hx2 : listMax ((xyPairsSpec (K := K) first).map Prod.fst) = some xmax)
    (hy1 : listMin ((xyPairsSpec (K := K) first).map Prod.snd) = some ymin)
    (hy2 : listMax ((xyPairsSpec (K := K) first).map Prod.snd) = some ymax) :
    fa.pivot_x = (xmin + xmax) / 2 ∧
    fa.pivot_y = (ymin + ymax) / 2 ∧
    fa.pipe_diameter = max (xmax - xmin) (ymax - ymin) ∧
    fa.wall_thickness = fa.pipe_diameter * (1 / 10) ∧
    rotation_matrix (Real.cos θ) (Real.sin θ) *
      (rotation_matrix (Real.cos θ) (Real.sin θ)).transpose = 1 ∧
    (rotation_matrix (Real.cos θ) (Real.sin θ)).det = 1 ∧
    (rotation_matrix (Real.cos θ) (Real.sin θ)).mulVec ![0, 1, 0] = ![0, 1, 0] ∧
    transform_point g x y z =
      ![g.cosT * (x - g.pivot_x) +
          g.sinT * ((z - g.min_z_second_part) + g.pipe_diameter / 2) + g.pivot_x,
        y,
        -g.sinT * (x - g.pivot_x) +
          g.cosT * ((z - g.min_z_second_part) + g.pipe_diameter / 2) +
          g.first_part_max_z - g.pipe_diameter / 2 * g.cosT] := by
  have hana : fa.pivot_x = (xmin + xmax) / 2 ∧ fa.pivot_y = (ymin + ymax) / 2 ∧
      fa.pipe_diameter = max (xmax - xmin) (ymax - ymin) ∧
      fa.wall_thickness = fa.pipe_diameter * (1 / 10) := by
    unfold analyze_first_part at hfa
    split at hfa
    · exact absurd hfa (by simp)
    · rename_i mzv pairs heqloop
      obtain ⟨-, h2⟩ := firstLoop_ok heqloop
      have h2' : pairs = xyPairsSpec (K := K) first := by simpa using h2
      subst h2'
      simp only [] at hfa
      split at hfa
      · rename_i xmin2 xmax2 ymin2 ymax2 hq1 hq2 hq3 hq4
        rw [hx1] at hq1
        rw [hx2] at hq2
        rw [hy1] at hq3
        rw [hy2] at hq4
        injection hq1 with hq1
        injection hq2 with hq2
        injection hq3 with hq3
        injection hq4 with hq4
        subst hq1; subst hq2; subst hq3; subst hq4
        injection hfa with hq
        rw [← hq]
        simp
      · exact absurd hfa (by simp)
  refine ⟨hana.1, hana.2.1, hana.2.2.1, hana.2.2.2, ?_, ?_, ?_, ?_⟩
  · ext i j
    fin_cases i <;> fin_cases j <;>
      simp [rotation_matrix, Matrix.mul_apply, Fin.sum_univ_three,
        Matrix.transpose_apply, Matrix.one_apply, Matrix.vecHead,
        Matrix.vecTail] <;>
      nlinarith [Real.sin_sq_add_cos_sq θ]
  · simp [rotation_matrix, Matrix.det_fin_three, Matrix.vecHead, Matrix.vecTail]
    nlinarith [Real.sin_sq_add_cos_sq θ]
  · funext i
    fin_cases i <;>
      simp [rotation_matrix, Matrix.mulVec, Matrix.dotProduct,
        Fin.sum_univ_three, Matrix.vecHead, Matrix.vecTail]
  · funext i
    fin_cases i <;>
      (simp only [transform_point, Matrix.cons_val_zero, Matrix.cons_val_one,
         Matrix.cons_val_two, Matrix.head_cons, Matrix.tail_cons, Fin.isValue]
       ring_nf)

/-- C5, witness at the concrete example analysis (tilt angle `0`). -/
theorem C5_witness :
    exFA.pivot_x = ((0 : ℚ) + 10) / 2 ∧
    exFA.pivot_y = ((0 : ℚ) + 10) / 2 ∧
    exFA.pipe_diameter = max ((10 : ℚ) - 0) ((10 : ℚ) - 0) ∧
    exFA.wall_thickness = exFA.pipe_diameter * (1 / 10) ∧
    rotation_matrix (Real.cos 0) (Real.sin 0) *
      (rotation_matrix (Real.cos 0) (Real.sin 0)).transpose = 1 ∧
    (rotation_matrix (Real.cos 0) (Real.sin 0)).det = 1 ∧
    (rotation_matrix (Real.cos 0) (Real.sin 0)).mulVec ![0, 1, 0] = ![0, 1, 0] ∧
    transform_point gEx 1 2 3 =
      ![gEx.cosT * ((1 : ℚ) - gEx.pivot_x) +
          gEx.sinT * (((3 : ℚ) - gEx.min_z_second_part) + gEx.pipe_diameter / 2) +
          gEx.pivot_x,
        2,
        -gEx.sinT * ((1 : ℚ) - gEx.pivot_x) +
          gEx.cosT * (((3 : ℚ) - gEx.min_z_second_part) + gEx.pipe_diameter / 2) +
          gEx.first_part_max_z - gEx.pipe_diameter / 2 * gEx.cosT] :=
  C5_theorem 0 exFirst exFA 0 10 0 10 gEx 1 2 3 (by decide) (by decide)
    (by decide) (by decide) (by decide)

/-- The axis letters present in an extracted command, in emission order. -/
def presentAxes (x? y? z? e? f? : Option K) : List Char :=
  (match x? with | some _ => ['X'] | none => ([] : List Char))
    ++ (match y? with | some _ => ['Y'] | none => [])
    ++ (match z? with | some _ => ['Z'] | none => [])
    ++ (match e? with | some _ => ['E'] | none => [])
    ++ (match f? with | some _ => ['F'] | none => [])

/-- C8, counterexample: E does not pass through numerically unchanged — the
5-decimal formatting rounds `0.123456` to `0.12346` in the emitted line. -/
theorem C8_counterexample :
    transform_movement (K := ℚ) gEx "G1 X1 Y1 Z2 E0.123456" =
      .ok (.motion "G1" [('X', 10), ('Y', 1), ('Z', 5), ('E', 6173 / 50000)]) ∧
    (6173 / 50000 : ℚ) ≠ 123456 / 1000000 := by
  refine ⟨by decide, by decide⟩

/-- C8 (corrected): exactly the axes present in the original command appear
in the emitted line, and no flow compensation is applied — F passes through
numerically unchanged, while E is re-emitted rounded to 5 decimal places
(so E values with more than 5 decimals are altered by rounding alone). -/
theorem C8_theorem (g : Geometry K) (line : String)
    (x? y? z? e? f? : Option K) (cmd : String) (parts : List (Char × K))
    (hex : extract_axes (K := K) line = .ok (x?, y?, z?, e?, f?))
    (ht : transform_movement g line = .ok (.motion cmd parts)) :
    parts.map Prod.fst = presentAxes x? y? z? e? f? ∧
    cmd = cmdOf line ∧
    (∀ e, e? = some e → ('E', roundTo 5 e) ∈ parts) ∧
    (∀ f, f? = some f → ('F', f) ∈ parts) := by
  unfold transform_movement at ht
  rw [hex] at ht
  rcases x? with _ | xv <;> rcases y? with _ | yv <;> rcases z? with _ | zv <;>
    rcases e? with _ | ev <;> rcases f? with _ | fv <;>
    simp_all [mkParts, presentAxes]
  all_goals (obtain ⟨hcmd, hparts⟩ := ht; subst hparts; simp)

/-- C8, witness at a command carrying X, E and F only. -/
theorem C8_witness :
    ([('X', roundTo 3 (transform_point gEx ((some (1 : ℚ)).getD gEx.pivot_x)
        ((none : Option ℚ).getD gEx.pivot_y)
        ((none : Option ℚ).getD gEx.min_z_second_part) 0)),
      ('E', roundTo 5 (2 : ℚ)), ('F', (3 : ℚ))].map Prod.fst =
        presentAxes (some (1 : ℚ)) none none (some 2) (some 3)) ∧
    "G1" = cmdOf "G1 X1 E2 F3" ∧
    (∀ e, (some (2 : ℚ)) = some e →
      ('E', roundTo 5 e) ∈
        [('X', roundTo 3 (transform_point gEx ((some (1 : ℚ)).getD gEx.pivot_x)
            ((none : Option ℚ).getD gEx.pivot_y)
            ((none : Option ℚ).getD gEx.min_z_second_part) 0)),
          ('E', roundTo 5 (2 : ℚ)), ('F', (3 : ℚ))]) ∧
    (∀ f, (some (3 : ℚ)) = some f →
      ('F', f) ∈
        [('X', roundTo 3 (transform_point gEx ((some (1 : ℚ)).getD gEx.pivot_x)
            ((none : Option ℚ).getD gEx.pivot_y)
            ((none : Option ℚ).getD gEx.min_z_second_part) 0)),
          ('E', roundTo 5 (2 : ℚ)), ('F', (3 : ℚ))]) :=
  C8_theorem gEx "G1 X1 E2 F3" (some 1) none none (some 2) (some 3) "G1"
    [('X', roundTo 3 (transform_point gEx ((some (1 : ℚ)).getD gEx.pivot_x)
        ((none : Option ℚ).getD gEx.pivot_y)
        ((none : Option ℚ).getD gEx.min_z_second_part) 0)),
      ('E', roundTo 5 (2 : ℚ)), ('F', (3 : ℚ))]
    (by decide) (by decide)

/-- Degenerate first part: a single point, so the XY bounding box has zero
extent (`pipe_diameter = 0`). -/
def exDegFirst : List String := ["G1 X1 Y1 Z1"]

/-- Second part for the degenerate run. -/
def exDegSecond : List String := ["G1 X1 Y1 Z0"]

/-- Output of the degenerate run: finite values throughout. -/
def exDegOut : List (OutLine ℚ) :=
  [.verbatim "G1 X1 Y1 Z1"] ++ transitionBlock 6 ++
    [.motion "G1" [('X', 1), ('Y', 1), ('Z', 1)]]

/-- C9, counterexample: a first part whose XY bounding box has zero extent
does not abort — analysis succeeds with `pipe_diameter = 0` and the whole
run produces ordinary finite output, contradicting the claimed immediate
`DegenerateGeometry` abort. -/
theorem C9_counterexample :
    analyze_first_part (K := ℚ) exDegFirst = .ok ⟨1, 0, 0, 1, 1⟩ ∧
    process_files (K := ℚ) 0 1 exDegFirst exDegSecond = .ok exDegOut := by
  refine ⟨by decide, by decide⟩

/-- C9 (corrected): given a first part whose loop scan succeeds (no
malformed matched token), the analysis aborts — with a plain `ValueError`
from `min()` of an empty sequence, not a dedicated diagnostic — exactly
when the first part has no line carrying both X and Y; a zero-extent
bounding box is not detected and does not abort. -/
theorem C9_theorem (first : List String) (mzv : K) (pairs : List (K × K))
    (hloop : firstLoop (K := K) (0, []) first = .ok (mzv, pairs)) :
    exceptOk (analyze_first_part (K := K) first) = true ↔
      xyPairsSpec (K := K) first ≠ [] := by
  obtain ⟨-, h2⟩ := firstLoop_ok hloop
  have h2' : pairs = xyPairsSpec (K := K) first := by simpa using h2
  subst h2'
  unfold analyze_first_part
  rw [hloop]
  cases hsp : xyPairsSpec (K := K) first with
  | nil => simp [listMin, listMax, exceptOk]
  | cons p ps => simp [listMin, listMax, exceptOk]

/-- C9, witness at the degenerate (zero-extent) first part. -/
theorem C9_witness :
    exceptOk (analyze_first_part (K := ℚ) exDegFirst) = true ↔
      xyPairsSpec (K := ℚ) exDegFirst ≠ [] :=
  C9_theorem exDegFirst 1 [(1, 1)] (by decide)

/-- First part whose Z values are all negative. -/
def negFirst : List String := ["G1 X0 Y0 Z-5", "G1 X4 Y4 Z-3"]

/-- Its analysis: the recorded maximum height is the accumulator seed `0`,
not the true maximum `-3`. -/
def negFA : FirstAnalysis ℚ := ⟨0, 4, 2 / 5, 2, 2⟩

/-- Second part for the all-negative-Z run. -/
def negSecond : List String := ["G1 X1 Y1 Z0"]

/-- Output of the all-negative-Z run: the Z lift is `0 + 5 = 5`. -/
def negOut : List (OutLine ℚ) :=
  negFirst.map OutLine.verbatim ++ transitionBlock 5 ++
    [.motion "G1" [('X', 4), ('Y', 1), ('Z', 1)]]

/-- C10: because the running maximum is seeded with `0`, a first part whose
Z values are all negative records `max_z = 0`, and the transition Z lift is
computed from that `0` (lifting to `0 + 5 = 5`). -/
theorem C10_theorem (cT sT : K) (first second : List String)
    (fa : FirstAnalysis K) (out : List (OutLine K))
    (hneg : ∀ z ∈ zsParsed (K := K) first, z < 0)
    (hfa : analyze_first_part (K := K) first = .ok fa)
    (hout : process_files cT sT first second = .ok out) :
    fa.max_z = 0 ∧ OutLine.zlift (5 : K) ∈ out := by
  have hmax : fa.max_z = 0 := by
    rw [analyze_max_z first fa hfa]
    exact foldl_max_of_neg hneg le_rfl
  refine ⟨hmax, ?_⟩
  obtain ⟨fa2, mz2, sec2, h1, -, -, h4⟩ := process_files_ok cT sT first second out hout
  rw [hfa] at h1
  injection h1 with h1
  subst h1
  rw [h4, hmax]
  simp [transitionBlock]

/-- C10, witness at the all-negative-Z first part. -/
theorem C10_witness : negFA.max_z = 0 ∧ OutLine.zlift (5 : ℚ) ∈ negOut :=
  C10_theorem 0 1 negFirst negSecond negFA negOut (by decide) (by decide)
    (by decide)

end SPP
